import Mathlib

/-!
Verification of the HTC-Grid compute-plane agent
(`src/source/compute_plane/python/agent/agent.py`) against its
natural-language specification.

The agent is shallowly embedded: each Python function becomes a Lean
function over explicit state (the DynamoDB status row, the TTL generator,
a clock-call index) that also returns a trace of externally visible
effects (queue operations, store writes, counter increments, sleeps,
file operations).  Time is modelled by an abstract clock `Nat → Nat`
indexed by the number of clock reads performed so far; each call to
`time.time()` / `get_time_now_ms()` consumes one index.  Nondeterministic
environment inputs (the SQS message, the result of the post-failure row
read, randomness, throttling outcomes of store calls, the remote invoke
payload) are passed in explicitly.

The DynamoDB helper module (`utils.dynamodb_common`) and the TTL
generator (`utils.ttl_experation_generator`) are not part of the source
tree; their conditional-write semantics are modelled from the spec
(sections 3 I1/I2 and 4.D) and marked as such in their doc comments.
-/

namespace Agent

/-- A task-status row of the DynamoDB status table (spec §3). -/
structure StatusRow where
  task_status : String
  task_owner : String
  heartbeat_expiration_timestamp : Nat
  retries : Nat
  task_completion_timestamp : Nat
deriving Repr, DecidableEq

/-- The task object materialized from a queue message body.  The `stats`
dictionary is modelled by its four agent-stage timestamp fields (the only
entries the agent writes). -/
structure Task where
  task_id : String
  task_definition : String
  sqs_handle_id : String
  stage3_agent_01_task_acquired_sqs_tstmp : Nat
  stage3_agent_02_task_acquired_ddb_tstmp : Nat
  stage4_agent_01_user_code_finished_tstmp : Nat
  stage4_agent_02_S3_stdout_delivered_tstmp : Nat
deriving Repr, DecidableEq

/-- An SQS message: its decoded JSON body and the receipt handle. -/
structure SqsMessage where
  body : Task
  receipt_handle : String
deriving Repr, DecidableEq

/-- Externally visible effects of the agent, recorded in traces.
`putOutputFromBytes` carries the raw stdout payload (the base64 framing
applied before handing it to the artifact store is external encoding and
is not modelled). -/
inductive Effect where
  | sqsReceive
  | sqsDelete
  | sqsChangeVisibility (timeout : Nat)
  | incrPre (name : String) (amount : Nat)
  | incrPost (name : String) (amount : Nat)
  | setPost (name : String) (value : String)
  | ddbClaimWrite (taskId : String) (owner : String) (expiration : Nat)
  | ddbFinishWrite (taskId : String) (owner : String)
  | ddbTtlWrite (taskId : String) (owner : String) (expiration : Nat)
  | ddbReadRow (taskId : String)
  | getInputFromStorage (taskId : String)
  | putOutputFromBytes (taskId : String) (data : String)
  | putOutputFromFile (taskId : String) (file : String)
  | sleepSec (sec : Nat)
  | openWrite (file : String)
  | closeFile (file : String)
  | fileWrite (file : String) (data : String)
  | invokeRemote (payload : String)
  | spawnSubprocess (args : List String) (fStdout : String) (fStderr : String)
  | postStop
  | submitPreMeasurements
  | submitPostMeasurements
  | errLog
deriving Repr, DecidableEq

/-- Modelled from the spec: the TTL generator of
`utils.ttl_experation_generator` (§4.D).  It holds the two configured
constants and maintains `next_refresh_at` / `next_expiration_at`;
`next_refresh_at` starts at 0 (the agent treats 0 as "never refreshed"). -/
structure TTLExpirationGenerator where
  refresh_interval : Nat
  expiration_offset : Nat
  next_refresh_at : Nat
  next_expiration_at : Nat
deriving Repr, DecidableEq

/-- Modelled from the spec: `generate_next_ttl()` advances
`next_refresh_at ← now + refresh_interval` and records
`next_expiration_at = now + expiration_offset` (§4.D). -/
def TTLExpirationGenerator.generate_next_ttl
    (g : TTLExpirationGenerator) (now : Nat) : TTLExpirationGenerator :=
  { g with next_refresh_at := now + g.refresh_interval,
           next_expiration_at := now + g.expiration_offset }

def TTLExpirationGenerator.get_next_refresh_timestamp
    (g : TTLExpirationGenerator) : Nat := g.next_refresh_at

def TTLExpirationGenerator.get_next_expiration_timestamp
    (g : TTLExpirationGenerator) : Nat := g.next_expiration_at

/-- Modelled from the spec: `ddb.claim_task_to_yourself` is the claim
conditional write with predicate `(owner == none ∧ status == pending)`,
setting `owner←self`, `status←processing-<self>`, the heartbeat
expiration, and `retries ← retries + 1` (spec §3 I1, §4.B step 5).
Returns the result flag and the (possibly updated) row. -/
def claim_task_to_yourself (row : Option StatusRow) (selfId : String)
    (expiration : Nat) : Bool × Option StatusRow :=
  match row with
  | none => (false, none)
  | some r =>
      if r.task_owner = "none" ∧ r.task_status = "pending" then
        (true, some { r with
          task_owner := selfId,
          task_status := "processing-" ++ selfId,
          heartbeat_expiration_timestamp := expiration,
          retries := r.retries + 1 })
      else (false, some r)

/-- Modelled from the spec: the conditional completion write
`processing-X → finished` with predicate `owner == self`, setting
`task_completion_timestamp ← now` (spec §3 I2, §4.E step 3). -/
def dynamodb_update_task_status_to_finished (row : Option StatusRow)
    (selfId : String) (now : Nat) : Bool × Option StatusRow :=
  match row with
  | none => (false, none)
  | some r =>
      if r.task_owner = selfId then
        (true, some { r with
          task_status := "finished",
          task_completion_timestamp := now })
      else (false, some r)

/-- Modelled from the spec: the lease-renewal conditional write with
predicate `owner == self`, writing a fresh heartbeat expiration
(spec §3 I2/I4, §4.D). -/
def update_own_tasks_ttl (row : Option StatusRow) (selfId : String)
    (expiration : Nat) : Bool × Option StatusRow :=
  match row with
  | none => (false, none)
  | some r =>
      if r.task_owner = selfId then
        (true, some { r with heartbeat_expiration_timestamp := expiration })
      else (false, some r)

/-- `random.randint(lo, hi)`: the environment supplies `r`, and the value
is folded into the inclusive range `[lo, hi]`. -/
def randint (lo hi r : Nat) : Nat := lo + r % (hi + 1 - lo)

/-- `is_task_has_been_cancelled` (agent.py:176-193): inspects the response
of `ddb.read_task_row`; `True` only when the response is present, has
exactly one item, and that item's `task_status` starts with `cancelled`.
The raw read response is passed in (it is whatever the store returned). -/
def is_task_has_been_cancelled (ddb_response : Option (List StatusRow)) : Bool :=
  match ddb_response with
  | none => false
  | some items =>
      if items.length = 1 then
        match items with
        | r :: _ => r.task_status.startsWith "cancelled"
        | [] => false
      else false

/-- Environment inputs consumed by one call to `try_to_acquire_a_task`. -/
structure AcquireEnv where
  message : Option SqsMessage
  readResponse : Option (List StatusRow)
  rand13 : Nat
deriving Repr

/-- Result of `try_to_acquire_a_task`: the returned pair, the updated
store row and TTL generator, the next clock-call index, and the effect
trace. -/
structure AcquireResult where
  message : Option SqsMessage
  task : Option Task
  row : Option StatusRow
  gen : TTLExpirationGenerator
  nextCall : Nat
  trace : List Effect
deriving Repr

/-- `try_to_acquire_a_task` (agent.py:196-261).  Receives at most one
message; on none, emits the no-messages counter and returns `(None,None)`.
Otherwise stamps the SQS pickup time, attaches the receipt handle,
attempts the conditional claim; on failure emits `failed_to_claim`,
probes cancellation (deleting the message and returning `(None,None)` if
cancelled, else sleeping `randint(1,3)` and returning `(None,None)`); on
success extends visibility, stamps stage3 timestamps, emits
`successful_acquire` and returns the message and task. -/
def try_to_acquire_a_task (env : AcquireEnv) (row : Option StatusRow)
    (selfId : String) (gen : TTLExpirationGenerator)
    (clock : Nat → Nat) (i : Nat) (visTimeout : Nat) : AcquireResult :=
  match env.message with
  | none =>
      { message := none, task := none, row := row, gen := gen,
        nextCall := i,
        trace := [.sqsReceive, .incrPre "agent_no_messages_in_tasks_queue" 1] }
  | some m =>
      let task_pick_up_from_sqs_ms := clock i
      -- AGENT_EXEC_TIMESTAMP_MS := clock (i+1)
      let task0 := { m.body with sqs_handle_id := m.receipt_handle }
      let gen1 := gen.generate_next_ttl (clock (i + 2))
      let expiration := gen1.get_next_expiration_timestamp
      let claim := claim_task_to_yourself row selfId expiration
      let claimEff := Effect.ddbClaimWrite task0.task_id selfId expiration
      if claim.1 then
        let task1 := { task0 with
          stage3_agent_01_task_acquired_sqs_tstmp := task_pick_up_from_sqs_ms,
          stage3_agent_02_task_acquired_ddb_tstmp := clock (i + 3) }
        { message := some m, task := some task1, row := claim.2, gen := gen1,
          nextCall := i + 4,
          trace := [.sqsReceive, claimEff,
                    .sqsChangeVisibility visTimeout,
                    .incrPre "agent_successful_acquire_a_task" 1] }
      else
        if is_task_has_been_cancelled env.readResponse then
          { message := none, task := none, row := claim.2, gen := gen1,
            nextCall := i + 3,
            trace := [.sqsReceive, claimEff,
                      .incrPre "agent_failed_to_claim_ddb_task" 1,
                      .ddbReadRow task0.task_id, .sqsDelete] }
        else
          { message := none, task := none, row := claim.2, gen := gen1,
            nextCall := i + 3,
            trace := [.sqsReceive, claimEff,
                      .incrPre "agent_failed_to_claim_ddb_task" 1,
                      .ddbReadRow task0.task_id,
                      .sleepSec (randint 1 3 env.rand13)] }

/-- Result of `process_subprocess_completion`: the updated task (stage4
stamps), the updated row, whether the finished write succeeded, the next
clock-call index, and the effect trace. -/
structure CommitResult where
  task : Task
  row : Option StatusRow
  finished : Bool
  nextCall : Nat
  trace : List Effect
deriving Repr

/-- The retry loop around the conditional completion write
(agent.py:297-309).  `throttles` lists, for each successive attempt,
whether the store throttled it (`ThrottlingException` /
`ProvisionedThroughputExceededException`); once the list is exhausted the
attempt is not throttled and the conditional write is applied.  Each
attempt consumes two clock reads (`time_start_ms`, `time_end_ms`); a
throttled attempt logs and continues, any other outcome breaks. -/
def finished_write_loop (taskId selfId : String) (clock : Nat → Nat) :
    Option StatusRow → Nat → List Bool → Bool × Option StatusRow × Nat × List Effect
  | row, i, [] =>
      let res := dynamodb_update_task_status_to_finished row selfId (clock i)
      (res.1, res.2, i + 2, [.ddbFinishWrite taskId selfId])
  | row, i, throttled :: rest =>
      if throttled then
        let tail := finished_write_loop taskId selfId clock row (i + 2) rest
        (tail.1, tail.2.1, tail.2.2.1,
         Effect.ddbFinishWrite taskId selfId :: Effect.errLog :: tail.2.2.2)
      else
        let res := dynamodb_update_task_status_to_finished row selfId (clock i)
        (res.1, res.2, i + 2, [.ddbFinishWrite taskId selfId])

/-- `process_subprocess_completion` (agent.py:264-329), the Completion
Committer.  Stamps `stage4_agent_01`; persists stdout (from bytes when a
payload string is given, else from the named file); stamps
`stage4_agent_02`; runs the throttling-retry loop around the conditional
finished write; on rejection emits `ddb_set_task_finished_failed` without
deleting the queue message, on success emits
`ddb_set_task_finished_succeeded` and deletes the message; finally emits
the total-time and pod-id measurements and submits them. -/
def process_subprocess_completion (task : Task) (row : Option StatusRow)
    (selfId : String) (clock : Nat → Nat) (i : Nat)
    (fname_stdout : String) (stdout : Option String)
    (throttles : List Bool) : CommitResult :=
  let task1 := { task with stage4_agent_01_user_code_finished_tstmp := clock i }
  let putEff := match stdout with
    | some s => Effect.putOutputFromBytes task.task_id s
    | none => Effect.putOutputFromFile task.task_id fname_stdout
  let task2 := { task1 with stage4_agent_02_S3_stdout_delivered_tstmp := clock (i + 1) }
  let loopRes := finished_write_loop task.task_id selfId clock row (i + 2) throttles
  let j := loopRes.2.2.1
  let tailTrace :=
    if loopRes.1 then
      [Effect.incrPost "ddb_set_task_finished_succeeded" 1, Effect.sqsDelete]
    else
      [Effect.incrPost "ddb_set_task_finished_failed" 1]
  -- two further clock reads for the total-time log and counter
  { task := task2, row := loopRes.2.1, finished := loopRes.1,
    nextCall := j + 2,
    trace := putEff :: loopRes.2.2.2 ++ tailTrace ++
      [Effect.incrPost "agent_total_time_ms" (clock (j + 1)),
       Effect.setPost "str_pod_id" selfId,
       Effect.submitPostMeasurements] }

/-- `do_task_local_lambda_execution_thread` (agent.py:377-412), the
remote-invoke execution variant.  Serializes the task definition, invokes
the remote function, and inspects the returned payload `ret_value`
(an environment input): if it contains the literal `"BOOTSTRAP ERROR"`
marker, only the `bootstrap_failure` counter is emitted; otherwise
`task_exec_time_ms` is emitted and the payload is handed to the
Completion Committer as the stdout artifact.
The thread suspends at the invoke await, during which the Lease Renewer
runs; `iStart` is the clock index of `t_start` (read before the await)
and `iResume` the first clock index after the await (for a standalone
run of the thread, `iResume = iStart + 1`). -/
def do_task_local_lambda_execution_thread (task : Task)
    (row : Option StatusRow) (selfId : String) (clock : Nat → Nat)
    (iStart iResume : Nat)
    (ret_value : String) (commitThrottles : List Bool) : CommitResult :=
  let t_start := clock iStart
  let invokeEff := Effect.invokeRemote task.task_definition
  if decide (List.IsInfix "BOOTSTRAP ERROR".toList ret_value.toList) then
    { task := task, row := row, finished := false, nextCall := iResume,
      trace := [invokeEff, .incrPost "bootstrap_failure" 1] }
  else
    let execTimeEff := Effect.incrPost "task_exec_time_ms" (clock iResume - t_start)
    let commit := process_subprocess_completion task row selfId clock (iResume + 1)
      "" (some ret_value) commitThrottles
    { commit with trace := invokeEff :: execTimeEff :: commit.trace }

/-- `do_task_local_execution_thread` (agent.py:348-374), the local
subprocess execution variant: spawns `./mock_compute_engine` with the
first three worker arguments, redirecting stdout/stderr to the per-task
files, polls until exit, then commits with the stdout file.  `polls` is
the number of liveness polls that found the child still running.
This function is defined in the source but has no caller. -/
def do_task_local_execution_thread (task : Task) (row : Option StatusRow)
    (selfId : String) (clock : Nat → Nat) (i : Nat)
    (worker_arguments : List String) (fStdout fStderr : String)
    (polls : Nat) (interval : Nat) (commitThrottles : List Bool) : CommitResult :=
  let spawnEff := Effect.spawnSubprocess (worker_arguments.take 3) fStdout fStderr
  let pollEffs := List.replicate polls (Effect.sleepSec interval)
  let commit := process_subprocess_completion task row selfId clock i
    fStdout none commitThrottles
  { commit with trace := spawnEff :: pollEffs ++ commit.trace }

/-- The retry loop inside `update_ttl_if_required` (agent.py:425-443).
Each attempt regenerates the TTL via `generate_next_ttl` (one clock read,
sandwiched between the `t1`/`t2` millisecond reads, so an attempt
consumes three clock reads) and issues the conditional lease write with
the freshly generated expiration; a throttled attempt logs and
continues, any other outcome breaks. -/
def ttl_retry_loop (taskId selfId : String) (clock : Nat → Nat) :
    Option StatusRow → TTLExpirationGenerator → Nat → List Bool →
    Bool × Option StatusRow × TTLExpirationGenerator × Nat × List Effect
  | row, gen, i, [] =>
      let gen1 := gen.generate_next_ttl (clock (i + 1))
      let res := update_own_tasks_ttl row selfId gen1.get_next_expiration_timestamp
      (res.1, res.2, gen1, i + 3,
       [.ddbTtlWrite taskId selfId gen1.get_next_expiration_timestamp])
  | row, gen, i, throttled :: rest =>
      let gen1 := gen.generate_next_ttl (clock (i + 1))
      if throttled then
        let tail := ttl_retry_loop taskId selfId clock row gen1 (i + 3) rest
        (tail.1, tail.2.1, tail.2.2.1, tail.2.2.2.1,
         Effect.ddbTtlWrite taskId selfId gen1.get_next_expiration_timestamp ::
           Effect.errLog :: tail.2.2.2.2)
      else
        let res := update_own_tasks_ttl row selfId gen1.get_next_expiration_timestamp
        (res.1, res.2, gen1, i + 3,
         [.ddbTtlWrite taskId selfId gen1.get_next_expiration_timestamp])

/-- `update_ttl_if_required` (agent.py:415-445).  Reads `time.time()`
once (one clock read); iff `next_refresh_at == 0` or
`next_refresh_at < now + work_proc_status_pull_interval_sec`, runs the
lease-write retry loop; otherwise returns `True` without touching the
store. -/
def update_ttl_if_required (taskId selfId : String) (row : Option StatusRow)
    (gen : TTLExpirationGenerator) (clock : Nat → Nat) (i : Nat)
    (interval : Nat) (throttles : List Bool) :
    Bool × Option StatusRow × TTLExpirationGenerator × Nat × List Effect :=
  if gen.get_next_refresh_timestamp = 0 ∨
      gen.get_next_refresh_timestamp < clock i + interval then
    ttl_retry_loop taskId selfId clock row gen (i + 1) throttles
  else
    (true, row, gen, i + 1, [])

/-- `do_ttl_updates_thread` (agent.py:448-468), the Lease Renewer.
`iters` is the number of loop iterations observed before
`execution_is_completed_flag` is seen set (the execution thread sets it
on completion); `scheds` supplies each iteration's throttle schedule.
A failed renewal emits `counter_update_ttl_failed`, submits the post
measurements and stops; a successful one sleeps the pull interval. -/
def do_ttl_updates_thread (taskId selfId : String) (clock : Nat → Nat)
    (interval : Nat) :
    Option StatusRow → TTLExpirationGenerator → Nat → Nat → List (List Bool) →
    Bool × Option StatusRow × TTLExpirationGenerator × Nat × List Effect
  | row, gen, i, 0, _ => (true, row, gen, i, [])
  | row, gen, i, iters + 1, scheds =>
      let upd := update_ttl_if_required taskId selfId row gen clock i interval
        (scheds.headD [])
      if upd.1 then
        let tail := do_ttl_updates_thread taskId selfId clock interval
          upd.2.1 upd.2.2.1 upd.2.2.2.1 iters scheds.tail
        (tail.1, tail.2.1, tail.2.2.1, tail.2.2.2.1,
         upd.2.2.2.2 ++ Effect.sleepSec interval :: tail.2.2.2.2)
      else
        (false, upd.2.1, upd.2.2.1, upd.2.2.2.1,
         upd.2.2.2.2 ++
           [Effect.incrPost "counter_update_ttl_failed" 1,
            Effect.submitPostMeasurements])

/-- Cooperative interleaving of two effect traces, directed by a
schedule: `true` takes the next effect of the first trace, `false` of the
second; an exhausted schedule or trace appends the rest. -/
def interleave : List Bool → List Effect → List Effect → List Effect
  | [], xs, ys => xs ++ ys
  | true :: s, xs, ys =>
      match xs with
      | [] => ys
      | x :: xs => x :: interleave s xs ys
  | false :: s, xs, ys =>
      match ys with
      | [] => xs
      | y :: ys => y :: interleave s xs ys

/-- The configuration keys of `Agent_config.tfvars.json` consumed by the
task-lifecycle engine (spec §6). -/
structure AgentConfig where
  empty_task_queue_backoff_timeout_sec : Nat
  work_proc_status_pull_interval_sec : Nat
  task_ttl_expiration_offset_sec : Nat
  task_ttl_refresh_interval_sec : Nat
  task_input_passed_via_external_storage : Nat
  agent_sqs_visibility_timeout_sec : Nat
deriving Repr, DecidableEq

/-- Environment inputs consumed by one `run_task` call. -/
structure RunEnv where
  retValue : String
  commitThrottles : List Bool
  ttlIters : Nat
  ttlThrottles : List (List Bool)
  sched : List Bool
deriving Repr

structure RunResult where
  task : Task
  row : Option StatusRow
  gen : TTLExpirationGenerator
  nextCall : Nat
  trace : List Effect
deriving Repr

/-- `run_task` (agent.py:481-511), the Execution Driver.  Prepares the
execution payload (fetching it from the artifact store when
`task_input_passed_via_external_storage == 1`), submits the pre-agent
measurements, opens the per-task stdout/stderr log files for writing,
then gathers the remote-invoke execution thread together with the Lease
Renewer thread (the renewer runs during the invoke await, before the
completion commit; the two threads' effect traces interleave per the
cooperative schedule), and finally closes both files.  The source
unconditionally creates `do_task_local_lambda_execution_thread`; no
configuration key selects `do_task_local_execution_thread`. -/
def run_task (cfg : AgentConfig) (env : RunEnv) (task : Task)
    (row : Option StatusRow) (selfId : String)
    (gen : TTLExpirationGenerator) (clock : Nat → Nat) (i : Nat) : RunResult :=
  let prepEffs : List Effect :=
    if cfg.task_input_passed_via_external_storage = 1 then
      [.getInputFromStorage task.task_id]
    else []
  let fname_stdout := "./stdout-" ++ task.task_id ++ ".log"
  let fname_stderr := "./stderr-" ++ task.task_id ++ ".log"
  let ttl := do_ttl_updates_thread task.task_id selfId clock
    cfg.work_proc_status_pull_interval_sec row gen (i + 1) env.ttlIters
    env.ttlThrottles
  let exec := do_task_local_lambda_execution_thread task ttl.2.1 selfId clock
    i ttl.2.2.2.1 env.retValue env.commitThrottles
  { task := exec.task, row := exec.row, gen := ttl.2.2.1,
    nextCall := exec.nextCall,
    trace := prepEffs ++ Effect.submitPreMeasurements ::
      Effect.openWrite fname_stdout :: Effect.openWrite fname_stderr ::
      interleave env.sched exec.trace ttl.2.2.2.2 ++
      [Effect.closeFile fname_stdout, Effect.closeFile fname_stderr] }

/-- Environment inputs consumed by one iteration of the main loop. -/
structure IterEnv where
  acquire : AcquireEnv
  row : Option StatusRow
  run : RunEnv
  backoffRand : Nat
deriving Repr

/-- Mutable state carried across loop iterations: the module-level TTL
generator and the clock-call index. -/
structure LoopState where
  gen : TTLExpirationGenerator
  nextCall : Nat
deriving Repr

/-- One iteration of the main event loop (agent.py:517-529): acquire;
when a task was acquired, run it; otherwise sleep a uniformly random
backoff in `[backoff, 2·backoff]`. -/
def agent_iteration (cfg : AgentConfig) (selfId : String) (clock : Nat → Nat)
    (env : IterEnv) (s : LoopState) : LoopState × List Effect :=
  let acq := try_to_acquire_a_task env.acquire env.row selfId s.gen clock
    s.nextCall cfg.agent_sqs_visibility_timeout_sec
  match acq.task with
  | some t =>
      let r := run_task cfg env.run t acq.row selfId acq.gen clock acq.nextCall
      ({ gen := r.gen, nextCall := r.nextCall }, acq.trace ++ r.trace)
  | none =>
      let timeout := cfg.empty_task_queue_backoff_timeout_sec +
        env.backoffRand % (cfg.empty_task_queue_backoff_timeout_sec + 1)
      ({ gen := acq.gen, nextCall := acq.nextCall },
       acq.trace ++ [Effect.sleepSec timeout])

/-- The complete traces of a prefix of loop iterations, in order. -/
def run_iterations (cfg : AgentConfig) (selfId : String) (clock : Nat → Nat) :
    List IterEnv → LoopState → List Effect
  | [], _ => []
  | e :: rest, s =>
      let step := agent_iteration cfg selfId clock e s
      step.2 ++ run_iterations cfg selfId clock rest step.1

/-- `event_loop` (agent.py:514-538).  `kill n` is the value of the
graceful-termination flag `kill_now` at the loop-head check before
iteration `n` (the signal handler only sets this flag; the loop reads it
only there).  When the flag is observed set, the loop exits and the
supervisor issues the best-effort stop POST to the remote runtime.
`envs` is the modelled fuel: if it runs out before the flag is observed,
the truncated trace is returned (the real loop would continue). -/
def event_loop (cfg : AgentConfig) (selfId : String) (clock : Nat → Nat)
    (kill : Nat → Bool) : List IterEnv → Nat → LoopState → List Effect
  | envs, n, s =>
      if kill n then [Effect.postStop]
      else
        match envs with
        | [] => []
        | e :: rest =>
            let step := agent_iteration cfg selfId clock e s
            step.2 ++ event_loop cfg selfId clock kill rest (n + 1) step.1

/-! ## Helper lemmas -/

theorem claim_result_iff (row : Option StatusRow) (selfId : String) (e : Nat) :
    (claim_task_to_yourself row selfId e).1 = true ↔
      ∃ r, row = some r ∧ r.task_owner = "none" ∧ r.task_status = "pending" := by
  cases row with
  | none => simp [claim_task_to_yourself]
  | some r =>
      by_cases h : r.task_owner = "none" ∧ r.task_status = "pending"
      · simp [claim_task_to_yourself, if_pos h, h.1, h.2]
      · simp only [claim_task_to_yourself, if_neg h]
        refine iff_of_false (by simp) ?_
        rintro ⟨s, hs, h1, h2⟩
        rw [Option.some.injEq] at hs
        subst hs
        exact h ⟨h1, h2⟩

theorem finished_write_loop_trace_mem (taskId selfId : String)
    (clock : Nat → Nat) (row : Option StatusRow) (i : Nat)
    (throttles : List Bool) :
    ∀ e ∈ (finished_write_loop taskId selfId clock row i throttles).2.2.2,
      e = Effect.ddbFinishWrite taskId selfId ∨ e = Effect.errLog := by
  induction throttles generalizing row i with
  | nil =>
      intro e he
      simp only [finished_write_loop, List.mem_singleton] at he
      exact Or.inl he
  | cons b rest ih =>
      intro e he
      cases b with
      | false =>
          simp only [finished_write_loop, Bool.false_eq_true, if_false,
            List.mem_singleton] at he
          exact Or.inl he
      | true =>
          simp only [finished_write_loop, if_true, List.mem_cons] at he
          rcases he with h | h | h
          · exact Or.inl h
          · exact Or.inr h
          · exact ih row (i + 2) e h

theorem finished_write_loop_finished_iff (taskId selfId : String)
    (clock : Nat → Nat) (row : Option StatusRow) (i : Nat)
    (throttles : List Bool) :
    (finished_write_loop taskId selfId clock row i throttles).1 = true ↔
      ∃ r, row = some r ∧ r.task_owner = selfId := by
  induction throttles generalizing row i with
  | nil =>
      cases row with
      | none => simp [finished_write_loop, dynamodb_update_task_status_to_finished]
      | some r =>
          by_cases h : r.task_owner = selfId
          · simp [finished_write_loop, dynamodb_update_task_status_to_finished,
              if_pos h, h]
          · simp only [finished_write_loop,
              dynamodb_update_task_status_to_finished, if_neg h]
            refine iff_of_false (by simp) ?_
            rintro ⟨s, hs, h1⟩
            rw [Option.some.injEq] at hs
            subst hs
            exact h h1
  | cons b rest ih =>
      cases b with
      | false =>
          cases row with
          | none => simp [finished_write_loop, dynamodb_update_task_status_to_finished]
          | some r =>
              by_cases h : r.task_owner = selfId
              · simp [finished_write_loop, dynamodb_update_task_status_to_finished,
                  if_pos h, h]
              · simp only [finished_write_loop, Bool.false_eq_true, if_false,
                  dynamodb_update_task_status_to_finished, if_neg h]
                refine iff_of_false (by simp) ?_
                rintro ⟨s, hs, h1⟩
                rw [Option.some.injEq] at hs
                subst hs
                exact h h1
      | true =>
          simp only [finished_write_loop, if_true]
          exact ih row (i + 2)

/-! ## C1 -/

/-- C1: In the Completion Committer, the queue message is deleted if and
only if the conditional processing-to-finished write succeeds; on
rejection the committer emits `ddb_set_task_finished_failed` and still
reaches the final measurements step without deleting the message; on
success it emits `ddb_set_task_finished_succeeded` and deletes it.  The
write succeeds exactly when this agent still owns the row. -/
theorem claim1_completion_delete_iff_finished
    (task : Task) (row : Option StatusRow) (selfId : String)
    (clock : Nat → Nat) (i : Nat) (fname_stdout : String)
    (stdout : Option String) (throttles : List Bool) :
    let res := process_subprocess_completion task row selfId clock i
      fname_stdout stdout throttles
    (Effect.sqsDelete ∈ res.trace ↔ res.finished = true) ∧
    (Effect.incrPost "ddb_set_task_finished_failed" 1 ∈ res.trace ↔
      res.finished = false) ∧
    (Effect.incrPost "ddb_set_task_finished_succeeded" 1 ∈ res.trace ↔
      res.finished = true) ∧
    res.trace.getLast? = some Effect.submitPostMeasurements ∧
    (res.finished = true ↔ ∃ r, row = some r ∧ r.task_owner = selfId) := by
  have hmem := finished_write_loop_trace_mem task.task_id selfId clock row (i + 2) throttles
  have hiff := finished_write_loop_finished_iff task.task_id selfId clock row (i + 2) throttles
  have hdel : Effect.sqsDelete ∉
      (finished_write_loop task.task_id selfId clock row (i + 2) throttles).2.2.2 := by
    intro h
    rcases hmem _ h with h1 | h1 <;> simp at h1
  have hfail : Effect.incrPost "ddb_set_task_finished_failed" 1 ∉
      (finished_write_loop task.task_id selfId clock row (i + 2) throttles).2.2.2 := by
    intro h
    rcases hmem _ h with h1 | h1 <;> simp at h1
  have hsucc : Effect.incrPost "ddb_set_task_finished_succeeded" 1 ∉
      (finished_write_loop task.task_id selfId clock row (i + 2) throttles).2.2.2 := by
    intro h
    rcases hmem _ h with h1 | h1 <;> simp at h1
  have hlast : ∀ (x : Effect) (A : List Effect) (a : Effect) (l : List Effect),
      (x :: (A ++ a :: l)).getLast? = (a :: l).getLast? := by
    intro x A a l
    have hx : x :: (A ++ a :: l) = (x :: A) ++ a :: l := rfl
    rw [hx, List.getLast?_append_cons]
  simp only [process_subprocess_completion]
  cases hfin : (finished_write_loop task.task_id selfId clock row (i + 2) throttles).1 with
  | false =>
      cases stdout <;>
        simp_all [List.mem_append, hlast, Bool.false_eq_true, false_iff]
  | true =>
      cases stdout <;>
        simp_all [List.mem_append, hlast]

/-! ## Concrete scenario constants -/

def happyTaskBody : Task := ⟨"T1", "taskdef", "", 0, 0, 0, 0⟩

def happyMessage : SqsMessage := ⟨happyTaskBody, "rh"⟩

def pendingRow : StatusRow := ⟨"pending", "none", 0, 0, 0⟩

def cancelledRow : StatusRow := ⟨"cancelled-by-user", "none", 0, 1, 0⟩

def otherOwnedRow : StatusRow := ⟨"processing-other", "other", 100, 1, 0⟩

def gen0 : TTLExpirationGenerator := ⟨15, 30, 0, 0⟩

def cfg0 : AgentConfig := ⟨5, 1, 30, 15, 0, 50⟩

def happyRunEnv : RunEnv := ⟨"ok", [], 0, [], []⟩

def cancelledAcquireEnv : AcquireEnv := ⟨some happyMessage, some [cancelledRow], 0⟩

def malformedAcquireEnv : AcquireEnv := ⟨some happyMessage, some [], 2⟩

/-! ## C2 -/

theorem randint13_bounds (r : Nat) : 1 ≤ randint 1 3 r ∧ randint 1 3 r ≤ 3 := by
  have h3 : r % 3 < 3 := Nat.mod_lt _ (by norm_num)
  unfold randint
  omega

theorem cancelled_probe_single (r : StatusRow) :
    is_task_has_been_cancelled (some [r]) = r.task_status.startsWith "cancelled" := by
  simp [is_task_has_been_cancelled]

/-- C2: When the conditional claim fails, the acquirer emits
`agent_failed_to_claim_ddb_task` and then reads the status row: if the
cancellation probe holds (the read returned exactly one row whose
`task_status` begins with `cancelled`), the queue message is deleted and
`(None, None)` is returned with no store write after the claim attempt;
otherwise the agent sleeps `randint(1,3) ∈ [1,3]` seconds and returns
`(None, None)` leaving the message in the queue.  Both exact traces are
given, so no further store write occurs in either branch. -/
theorem claim2_failed_claim_cancel_or_backoff
    (env : AcquireEnv) (row : Option StatusRow) (selfId : String)
    (gen : TTLExpirationGenerator) (clock : Nat → Nat) (i vis : Nat)
    (m : SqsMessage) (hm : env.message = some m)
    (hclaim : ∀ e, (claim_task_to_yourself row selfId e).1 = false) :
    (∀ r : StatusRow, is_task_has_been_cancelled (some [r]) =
      r.task_status.startsWith "cancelled") ∧
    (try_to_acquire_a_task env row selfId gen clock i vis).message = none ∧
    (try_to_acquire_a_task env row selfId gen clock i vis).task = none ∧
    (if is_task_has_been_cancelled env.readResponse then
      (try_to_acquire_a_task env row selfId gen clock i vis).trace =
        [.sqsReceive,
         .ddbClaimWrite m.body.task_id selfId
           ((gen.generate_next_ttl (clock (i + 2))).get_next_expiration_timestamp),
         .incrPre "agent_failed_to_claim_ddb_task" 1,
         .ddbReadRow m.body.task_id, .sqsDelete]
    else
      (try_to_acquire_a_task env row selfId gen clock i vis).trace =
        [.sqsReceive,
         .ddbClaimWrite m.body.task_id selfId
           ((gen.generate_next_ttl (clock (i + 2))).get_next_expiration_timestamp),
         .incrPre "agent_failed_to_claim_ddb_task" 1,
         .ddbReadRow m.body.task_id,
         .sleepSec (randint 1 3 env.rand13)]) ∧
    1 ≤ randint 1 3 env.rand13 ∧ randint 1 3 env.rand13 ≤ 3 := by
  refine ⟨cancelled_probe_single, ?_⟩
  have hb := randint13_bounds env.rand13
  simp only [try_to_acquire_a_task, hm]
  rw [hclaim]
  cases hc : is_task_has_been_cancelled env.readResponse <;>
    simp [hb.1, hb.2]

/-- Witness for C2 at the cancelled-row scenario. -/
theorem claim2_witness :
    (∀ r : StatusRow, is_task_has_been_cancelled (some [r]) =
      r.task_status.startsWith "cancelled") ∧
    (try_to_acquire_a_task cancelledAcquireEnv (some cancelledRow) "self" gen0
      (fun n => n) 0 50).message = none ∧
    (try_to_acquire_a_task cancelledAcquireEnv (some cancelledRow) "self" gen0
      (fun n => n) 0 50).task = none ∧
    (if is_task_has_been_cancelled cancelledAcquireEnv.readResponse then
      (try_to_acquire_a_task cancelledAcquireEnv (some cancelledRow) "self" gen0
        (fun n => n) 0 50).trace =
        [.sqsReceive,
         .ddbClaimWrite happyMessage.body.task_id "self"
           ((gen0.generate_next_ttl ((fun n => n) (0 + 2))).get_next_expiration_timestamp),
         .incrPre "agent_failed_to_claim_ddb_task" 1,
         .ddbReadRow happyMessage.body.task_id, .sqsDelete]
    else
      (try_to_acquire_a_task cancelledAcquireEnv (some cancelledRow) "self" gen0
        (fun n => n) 0 50).trace =
        [.sqsReceive,
         .ddbClaimWrite happyMessage.body.task_id "self"
           ((gen0.generate_next_ttl ((fun n => n) (0 + 2))).get_next_expiration_timestamp),
         .incrPre "agent_failed_to_claim_ddb_task" 1,
         .ddbReadRow happyMessage.body.task_id,
         .sleepSec (randint 1 3 cancelledAcquireEnv.rand13)]) ∧
    1 ≤ randint 1 3 cancelledAcquireEnv.rand13 ∧
      randint 1 3 cancelledAcquireEnv.rand13 ≤ 3 :=
  claim2_failed_claim_cancel_or_backoff cancelledAcquireEnv (some cancelledRow)
    "self" gen0 (fun n => n) 0 50 happyMessage rfl (fun _ => rfl)

/-! ## C9 -/

theorem cancelled_probe_false_of_malformed (resp : Option (List StatusRow))
    (h : resp = none ∨ ∃ items, resp = some items ∧ items.length ≠ 1) :
    is_task_has_been_cancelled resp = false := by
  rcases h with h | ⟨items, rfl, hlen⟩
  · subst h
    rfl
  · simp [is_task_has_been_cancelled, hlen]

/-- C9 (implicit): when the conditional claim fails and the subsequent
row read returns no response or a number of items different from one,
the cancellation probe returns `False`, so the acquirer takes the
contention branch — sleeping 1 to 3 seconds and returning
`(None, None)` — and the queue message is not deleted. -/
theorem claim9_malformed_read_takes_contention_branch
    (env : AcquireEnv) (row : Option StatusRow) (selfId : String)
    (gen : TTLExpirationGenerator) (clock : Nat → Nat) (i vis : Nat)
    (m : SqsMessage) (hm : env.message = some m)
    (hclaim : ∀ e, (claim_task_to_yourself row selfId e).1 = false)
    (hresp : env.readResponse = none ∨
      ∃ items, env.readResponse = some items ∧ items.length ≠ 1) :
    is_task_has_been_cancelled env.readResponse = false ∧
    (try_to_acquire_a_task env row selfId gen clock i vis).message = none ∧
    (try_to_acquire_a_task env row selfId gen clock i vis).task = none ∧
    Effect.sqsDelete ∉ (try_to_acquire_a_task env row selfId gen clock i vis).trace ∧
    Effect.sleepSec (randint 1 3 env.rand13) ∈
      (try_to_acquire_a_task env row selfId gen clock i vis).trace ∧
    1 ≤ randint 1 3 env.rand13 ∧ randint 1 3 env.rand13 ≤ 3 := by
  have hc := cancelled_probe_false_of_malformed env.readResponse hresp
  have hb := randint13_bounds env.rand13
  simp only [try_to_acquire_a_task, hm]
  rw [hclaim, hc]
  simp [hb.1, hb.2]

/-- Witness for C9 at a read response with zero items. -/
theorem claim9_witness :
    is_task_has_been_cancelled malformedAcquireEnv.readResponse = false ∧
    (try_to_acquire_a_task malformedAcquireEnv (some otherOwnedRow) "self" gen0
      (fun n => n) 0 50).message = none ∧
    (try_to_acquire_a_task malformedAcquireEnv (some otherOwnedRow) "self" gen0
      (fun n => n) 0 50).task = none ∧
    Effect.sqsDelete ∉ (try_to_acquire_a_task malformedAcquireEnv
      (some otherOwnedRow) "self" gen0 (fun n => n) 0 50).trace ∧
    Effect.sleepSec (randint 1 3 malformedAcquireEnv.rand13) ∈
      (try_to_acquire_a_task malformedAcquireEnv (some otherOwnedRow) "self" gen0
        (fun n => n) 0 50).trace ∧
    1 ≤ randint 1 3 malformedAcquireEnv.rand13 ∧
      randint 1 3 malformedAcquireEnv.rand13 ≤ 3 :=
  claim9_malformed_read_takes_contention_branch malformedAcquireEnv
    (some otherOwnedRow) "self" gen0 (fun n => n) 0 50 happyMessage rfl
    (fun _ => rfl) (Or.inr ⟨[], rfl, by decide⟩)

/-! ## C3 -/

/-- The expiration carried by a lease-write effect, if any. -/
def effectTtlExp : Effect → Option Nat
  | .ddbTtlWrite _ _ e => some e
  | _ => none

@[simp]
theorem effectTtlExp_ttlWrite (a b : String) (e : Nat) :
    effectTtlExp (.ddbTtlWrite a b e) = some e := rfl

@[simp]
theorem effectTtlExp_errLog : effectTtlExp .errLog = none := rfl

/-- The heartbeat expirations carried by the lease-write attempts of a
trace, in order. -/
def ttlWriteExps (tr : List Effect) : List Nat := tr.filterMap effectTtlExp

theorem ttl_retry_loop_exps (taskId selfId : String) (clock : Nat → Nat)
    (row : Option StatusRow) (gen : TTLExpirationGenerator) (p k : Nat) :
    ttlWriteExps
      (ttl_retry_loop taskId selfId clock row gen p (List.replicate k true)).2.2.2.2 =
      (List.range (k + 1)).map
        (fun j => clock (p + 3 * j + 1) + gen.expiration_offset) := by
  induction k generalizing row gen p with
  | zero =>
      simp [ttl_retry_loop, ttlWriteExps, update_own_tasks_ttl,
        TTLExpirationGenerator.generate_next_ttl,
        TTLExpirationGenerator.get_next_expiration_timestamp]
      have h1 : List.range 1 = [0] := rfl
      rw [h1, List.map_cons, List.map_nil]
  | succ k ih =>
      simp only [ttlWriteExps] at ih
      simp only [List.replicate_succ, ttl_retry_loop, if_true, ttlWriteExps,
        List.filterMap_cons, effectTtlExp_ttlWrite, effectTtlExp_errLog]
      rw [ih]
      simp only [TTLExpirationGenerator.get_next_expiration_timestamp,
        TTLExpirationGenerator.generate_next_ttl]
      conv_rhs => rw [List.range_succ_eq_map, List.map_cons, List.map_map]
      congr 1
      refine List.map_congr_left ?_
      intro a _
      simp only [Function.comp_apply, Nat.succ_eq_add_one]
      have hx : p + 3 + 3 * a + 1 = p + 3 * (a + 1) + 1 := by omega
      rw [hx]

/-- C3: On every iteration of the lease-renewal loop the body
`update_ttl_if_required` issues a conditional heartbeat write iff
`next_refresh_at == 0` or `next_refresh_at < now +
work_proc_status_pull_interval_sec`; when the first `k` attempts are
throttled, exactly `k + 1` lease writes are issued, the `j`-th carrying a
TTL expiration freshly generated at that attempt's own clock read
(`clock (i + 1 + 3·j + 1) + expiration_offset`). -/
theorem claim3_ttl_update_iff_and_fresh_retry
    (taskId selfId : String) (row : Option StatusRow)
    (gen : TTLExpirationGenerator) (clock : Nat → Nat) (i interval k : Nat) :
    (ttlWriteExps (update_ttl_if_required taskId selfId row gen clock i interval
        (List.replicate k true)).2.2.2.2 ≠ [] ↔
      (gen.get_next_refresh_timestamp = 0 ∨
        gen.get_next_refresh_timestamp < clock i + interval)) ∧
    ttlWriteExps (update_ttl_if_required taskId selfId row gen clock i interval
        (List.replicate k true)).2.2.2.2 =
      (if gen.get_next_refresh_timestamp = 0 ∨
          gen.get_next_refresh_timestamp < clock i + interval then
        (List.range (k + 1)).map
          (fun j => clock (i + 1 + 3 * j + 1) + gen.expiration_offset)
      else []) := by
  by_cases h : gen.get_next_refresh_timestamp = 0 ∨
      gen.get_next_refresh_timestamp < clock i + interval
  · simp only [update_ttl_if_required, if_pos h,
      ttl_retry_loop_exps taskId selfId clock row gen (i + 1) k]
    refine ⟨⟨fun _ => h, fun _ => ?_⟩, by simp [h]⟩
    simp
  · simp only [update_ttl_if_required, if_neg h]
    simp [ttlWriteExps, h]

/-! ## C6 -/

/-- C6: In the remote-invoke variant, when the returned payload contains
the literal `"BOOTSTRAP ERROR"` marker, only `bootstrap_failure` is
emitted and no completion is committed (no artifact put, no finished
write, no queue delete, row untouched); otherwise `task_exec_time_ms` is
emitted and the payload is passed as the stdout artifact to the
Completion Committer. -/
theorem claim6_bootstrap_marker_skips_commit
    (task : Task) (row : Option StatusRow) (selfId : String)
    (clock : Nat → Nat) (iStart iResume : Nat) (ret_value : String)
    (throttles : List Bool) :
    if List.IsInfix "BOOTSTRAP ERROR".toList ret_value.toList then
      (do_task_local_lambda_execution_thread task row selfId clock iStart
          iResume ret_value throttles).trace =
        [.invokeRemote task.task_definition, .incrPost "bootstrap_failure" 1] ∧
      (do_task_local_lambda_execution_thread task row selfId clock iStart
          iResume ret_value throttles).row = row ∧
      Effect.sqsDelete ∉ (do_task_local_lambda_execution_thread task row selfId
          clock iStart iResume ret_value throttles).trace ∧
      (∀ d, Effect.putOutputFromBytes task.task_id d ∉
        (do_task_local_lambda_execution_thread task row selfId clock iStart
          iResume ret_value throttles).trace) ∧
      (∀ o, Effect.ddbFinishWrite task.task_id o ∉
        (do_task_local_lambda_execution_thread task row selfId clock iStart
          iResume ret_value throttles).trace)
    else
      (do_task_local_lambda_execution_thread task row selfId clock iStart
          iResume ret_value throttles).trace =
        Effect.invokeRemote task.task_definition ::
        Effect.incrPost "task_exec_time_ms" (clock iResume - clock iStart) ::
        (process_subprocess_completion task row selfId clock (iResume + 1) ""
          (some ret_value) throttles).trace ∧
      Effect.putOutputFromBytes task.task_id ret_value ∈
        (do_task_local_lambda_execution_thread task row selfId clock iStart
          iResume ret_value throttles).trace := by
  cases hb : decide (List.IsInfix "BOOTSTRAP ERROR".toList ret_value.toList) with
  | true =>
      rw [if_pos (of_decide_eq_true hb)]
      unfold do_task_local_lambda_execution_thread
      rw [hb]
      simp
  | false =>
      rw [if_neg (of_decide_eq_false hb)]
      unfold do_task_local_lambda_execution_thread
      rw [hb]
      constructor
      · simp
      · simp [process_subprocess_completion]

/-! ## Trace classification helpers for C4 and C10 -/

/-- Whether an effect launches the local subprocess variant. -/
def isSpawn : Effect → Bool
  | .spawnSubprocess _ _ _ => true
  | _ => false

/-- Whether an effect writes to a file. -/
def isFileWrite : Effect → Bool
  | .fileWrite _ _ => true
  | _ => false

/-- Every effect of the trace neither spawns a subprocess nor writes a
file. -/
def TraceSafe (tr : List Effect) : Prop :=
  ∀ e ∈ tr, isSpawn e = false ∧ isFileWrite e = false

theorem traceSafe_nil : TraceSafe [] := by
  intro e he
  cases he

theorem traceSafe_cons {e0 : Effect}
    (h0 : isSpawn e0 = false ∧ isFileWrite e0 = false) {b : List Effect}
    (hb : TraceSafe b) : TraceSafe (e0 :: b) := by
  intro e he
  rcases List.mem_cons.mp he with h | h
  · subst h; exact h0
  · exact hb e h

theorem traceSafe_append {a b : List Effect} (ha : TraceSafe a)
    (hb : TraceSafe b) : TraceSafe (a ++ b) := by
  intro e he
  rcases List.mem_append.mp he with h | h
  · exact ha e h
  · exact hb e h

theorem interleave_perm (s : List Bool) (xs ys : List Effect) :
    List.Perm (interleave s xs ys) (xs ++ ys) := by
  induction s generalizing xs ys with
  | nil => exact List.Perm.refl _
  | cons b t ih =>
      cases b with
      | true =>
          cases xs with
          | nil => exact List.Perm.refl _
          | cons x xs =>
              show List.Perm (x :: interleave t xs ys) (x :: xs ++ ys)
              exact (ih xs ys).cons x
      | false =>
          cases ys with
          | nil =>
              show List.Perm xs (xs ++ [])
              rw [List.append_nil]
          | cons y ys =>
              show List.Perm (y :: interleave t xs ys) (xs ++ y :: ys)
              exact ((ih xs ys).cons y).trans List.perm_middle.symm

theorem traceSafe_interleave {s : List Bool} {a b : List Effect}
    (ha : TraceSafe a) (hb : TraceSafe b) : TraceSafe (interleave s a b) := by
  intro e he
  exact traceSafe_append ha hb e ((interleave_perm s a b).mem_iff.mp he)

theorem finished_write_loop_safe (taskId selfId : String) (clock : Nat → Nat)
    (row : Option StatusRow) (i : Nat) (throttles : List Bool) :
    TraceSafe (finished_write_loop taskId selfId clock row i throttles).2.2.2 := by
  intro e he
  rcases finished_write_loop_trace_mem taskId selfId clock row i throttles e he
    with h | h <;> subst h <;> exact ⟨rfl, rfl⟩

theorem process_subprocess_completion_safe (task : Task)
    (row : Option StatusRow) (selfId : String) (clock : Nat → Nat) (i : Nat)
    (fname_stdout : String) (stdout : Option String) (throttles : List Bool) :
    TraceSafe (process_subprocess_completion task row selfId clock i
      fname_stdout stdout throttles).trace := by
  have hloop := finished_write_loop_safe task.task_id selfId clock row (i + 2)
    throttles
  have htail : ∀ b : Bool, TraceSafe
      (if b then
        [Effect.incrPost "ddb_set_task_finished_succeeded" 1, Effect.sqsDelete]
      else [Effect.incrPost "ddb_set_task_finished_failed" 1]) := by
    intro b
    cases b with
    | true =>
        exact traceSafe_cons (by exact ⟨rfl, rfl⟩) (traceSafe_cons (by exact ⟨rfl, rfl⟩) traceSafe_nil)
    | false => exact traceSafe_cons (by exact ⟨rfl, rfl⟩) traceSafe_nil
  have hfinal : TraceSafe [Effect.incrPost "agent_total_time_ms"
      (clock ((finished_write_loop task.task_id selfId clock row (i + 2)
        throttles).2.2.1 + 1)),
      Effect.setPost "str_pod_id" selfId, Effect.submitPostMeasurements] :=
    traceSafe_cons (by exact ⟨rfl, rfl⟩) (traceSafe_cons (by exact ⟨rfl, rfl⟩)
      (traceSafe_cons (by exact ⟨rfl, rfl⟩) traceSafe_nil))
  cases stdout with
  | none =>
      exact traceSafe_append (traceSafe_append
        (traceSafe_cons (by exact ⟨rfl, rfl⟩) hloop) (htail _)) hfinal
  | some s =>
      exact traceSafe_append (traceSafe_append
        (traceSafe_cons (by exact ⟨rfl, rfl⟩) hloop) (htail _)) hfinal

theorem do_task_local_lambda_execution_thread_safe (task : Task)
    (row : Option StatusRow) (selfId : String) (clock : Nat → Nat)
    (iStart iResume : Nat) (ret_value : String) (throttles : List Bool) :
    TraceSafe (do_task_local_lambda_execution_thread task row selfId clock
      iStart iResume ret_value throttles).trace := by
  unfold do_task_local_lambda_execution_thread
  split
  · exact traceSafe_cons (by exact ⟨rfl, rfl⟩) (traceSafe_cons (by exact ⟨rfl, rfl⟩) traceSafe_nil)
  · exact traceSafe_cons (by exact ⟨rfl, rfl⟩) (traceSafe_cons (by exact ⟨rfl, rfl⟩)
      (process_subprocess_completion_safe task row selfId clock (iResume + 1)
        "" (some ret_value) throttles))

theorem ttl_retry_loop_safe (taskId selfId : String) (clock : Nat → Nat)
    (row : Option StatusRow) (gen : TTLExpirationGenerator) (p : Nat)
    (l : List Bool) :
    TraceSafe (ttl_retry_loop taskId selfId clock row gen p l).2.2.2.2 := by
  induction l generalizing row gen p with
  | nil =>
      intro e he
      simp only [ttl_retry_loop, List.mem_singleton] at he
      subst he
      exact ⟨rfl, rfl⟩
  | cons b t ih =>
      cases b with
      | false =>
          intro e he
          simp only [ttl_retry_loop, Bool.false_eq_true, if_false,
            List.mem_singleton] at he
          subst he
          exact ⟨rfl, rfl⟩
      | true =>
          intro e he
          simp only [ttl_retry_loop, if_true, List.mem_cons] at he
          rcases he with h | h | h
          · subst h; exact ⟨rfl, rfl⟩
          · subst h; exact ⟨rfl, rfl⟩
          · exact ih row (gen.generate_next_ttl (clock (p + 1))) (p + 3) e h

theorem update_ttl_if_required_safe (taskId selfId : String)
    (row : Option StatusRow) (gen : TTLExpirationGenerator)
    (clock : Nat → Nat) (i interval : Nat) (throttles : List Bool) :
    TraceSafe (update_ttl_if_required taskId selfId row gen clock i interval
      throttles).2.2.2.2 := by
  unfold update_ttl_if_required
  split
  · exact ttl_retry_loop_safe taskId selfId clock row gen (i + 1) throttles
  · intro e he
    cases he

theorem do_ttl_updates_thread_safe (taskId selfId : String)
    (clock : Nat → Nat) (interval : Nat) (row : Option StatusRow)
    (gen : TTLExpirationGenerator) (i iters : Nat) (scheds : List (List Bool)) :
    TraceSafe (do_ttl_updates_thread taskId selfId clock interval row gen i
      iters scheds).2.2.2.2 := by
  induction iters generalizing row gen i scheds with
  | zero =>
      intro e he
      cases he
  | succ n ih =>
      have hupd := update_ttl_if_required_safe taskId selfId row gen clock i
        interval (scheds.headD [])
      unfold do_ttl_updates_thread
      dsimp only
      split
      · exact traceSafe_append hupd (traceSafe_cons (by exact ⟨rfl, rfl⟩) (ih _ _ _ _))
      · exact traceSafe_append hupd (traceSafe_cons (by exact ⟨rfl, rfl⟩)
          (traceSafe_cons (by exact ⟨rfl, rfl⟩) traceSafe_nil))

theorem run_task_safe (cfg : AgentConfig) (env : RunEnv) (task : Task)
    (row : Option StatusRow) (selfId : String)
    (gen : TTLExpirationGenerator) (clock : Nat → Nat) (i : Nat) :
    TraceSafe (run_task cfg env task row selfId gen clock i).trace := by
  have hpre : TraceSafe (if cfg.task_input_passed_via_external_storage = 1 then
      [Effect.getInputFromStorage task.task_id] else []) := by
    split
    · exact traceSafe_cons (by exact ⟨rfl, rfl⟩) traceSafe_nil
    · exact traceSafe_nil
  have httl := do_ttl_updates_thread_safe task.task_id selfId clock
    cfg.work_proc_status_pull_interval_sec row gen (i + 1) env.ttlIters
    env.ttlThrottles
  have hexec := do_task_local_lambda_execution_thread_safe task
    (do_ttl_updates_thread task.task_id selfId clock
      cfg.work_proc_status_pull_interval_sec row gen (i + 1) env.ttlIters
      env.ttlThrottles).2.1 selfId clock i
    (do_ttl_updates_thread task.task_id selfId clock
      cfg.work_proc_status_pull_interval_sec row gen (i + 1) env.ttlIters
      env.ttlThrottles).2.2.2.1 env.retValue env.commitThrottles
  have hclose : TraceSafe [Effect.closeFile ("./stdout-" ++ task.task_id ++ ".log"),
      Effect.closeFile ("./stderr-" ++ task.task_id ++ ".log")] :=
    traceSafe_cons (by exact ⟨rfl, rfl⟩) (traceSafe_cons (by exact ⟨rfl, rfl⟩) traceSafe_nil)
  exact traceSafe_append
    (traceSafe_append hpre
      (traceSafe_cons (by exact ⟨rfl, rfl⟩) (traceSafe_cons (by exact ⟨rfl, rfl⟩)
        (traceSafe_cons (by exact ⟨rfl, rfl⟩) (traceSafe_interleave hexec httl)))))
    hclose

/-! ## C4 -/

theorem lambda_thread_invoke_mem (task : Task) (row : Option StatusRow)
    (selfId : String) (clock : Nat → Nat) (iStart iResume : Nat)
    (ret_value : String) (throttles : List Bool) :
    Effect.invokeRemote task.task_definition ∈
      (do_task_local_lambda_execution_thread task row selfId clock iStart
        iResume ret_value throttles).trace := by
  unfold do_task_local_lambda_execution_thread
  split <;> simp

theorem run_task_invoke_mem (cfg : AgentConfig) (env : RunEnv) (task : Task)
    (row : Option StatusRow) (selfId : String)
    (gen : TTLExpirationGenerator) (clock : Nat → Nat) (i : Nat) :
    Effect.invokeRemote task.task_definition ∈
      (run_task cfg env task row selfId gen clock i).trace := by
  unfold run_task
  refine List.mem_append.mpr (Or.inl (List.mem_append.mpr (Or.inr ?_)))
  refine List.mem_cons.mpr (Or.inr (List.mem_cons.mpr (Or.inr
    (List.mem_cons.mpr (Or.inr ?_)))))
  refine (interleave_perm _ _ _).mem_iff.mpr (List.mem_append.mpr (Or.inl ?_))
  exact lambda_thread_invoke_mem _ _ _ _ _ _ _ _

/-- C4 counterexample: there is no configuration (nor any other input)
under which `run_task` launches the local subprocess variant — refuting
"there exists a configuration under which the local subprocess variant
runs". -/
theorem claim4_counterexample :
    ¬ ∃ (cfg : AgentConfig) (env : RunEnv) (task : Task)
        (row : Option StatusRow) (selfId : String)
        (gen : TTLExpirationGenerator) (clock : Nat → Nat) (i : Nat),
      (run_task cfg env task row selfId gen clock i).trace.any isSpawn = true := by
  rintro ⟨cfg, env, task, row, selfId, gen, clock, i, h⟩
  rcases List.any_eq_true.mp h with ⟨e, he, hs⟩
  have hsafe := run_task_safe cfg env task row selfId gen clock i e he
  rw [hsafe.1] at hs
  cases hs

/-- C4 amended: `run_task` always executes the remote-invoke variant —
for every configuration and every input its trace contains the remote
invocation of the task definition and never a subprocess spawn; the
local subprocess variant (`do_task_local_execution_thread`) exists in
the source but has no caller, and no configuration key selects it. -/
theorem claim4_always_remote_invoke (cfg : AgentConfig) (env : RunEnv)
    (task : Task) (row : Option StatusRow) (selfId : String)
    (gen : TTLExpirationGenerator) (clock : Nat → Nat) (i : Nat) :
    Effect.invokeRemote task.task_definition ∈
      (run_task cfg env task row selfId gen clock i).trace ∧
    (run_task cfg env task row selfId gen clock i).trace.any isSpawn = false := by
  refine ⟨run_task_invoke_mem cfg env task row selfId gen clock i, ?_⟩
  rw [List.any_eq_false]
  intro e he
  simp [(run_task_safe cfg env task row selfId gen clock i e he).1]

/-! ## C10 -/

/-- C10 (implicit): for every executed task, `run_task` opens both
per-task log files for writing before starting execution (the remote
invocation happens strictly between the opens and the closes), closes
them after completion, and no effect of the run ever writes to any
file — so the files are left empty even though only the remote-invoke
variant runs. -/
theorem claim10_log_files_open_close_never_written (cfg : AgentConfig)
    (env : RunEnv) (task : Task) (row : Option StatusRow) (selfId : String)
    (gen : TTLExpirationGenerator) (clock : Nat → Nat) (i : Nat) :
    ∃ pre mid,
      (run_task cfg env task row selfId gen clock i).trace =
        pre ++ Effect.openWrite ("./stdout-" ++ task.task_id ++ ".log") ::
          Effect.openWrite ("./stderr-" ++ task.task_id ++ ".log") ::
          (mid ++ [Effect.closeFile ("./stdout-" ++ task.task_id ++ ".log"),
                   Effect.closeFile ("./stderr-" ++ task.task_id ++ ".log")]) ∧
      Effect.invokeRemote task.task_definition ∈ mid ∧
      (run_task cfg env task row selfId gen clock i).trace.any isFileWrite
        = false := by
  refine ⟨(if cfg.task_input_passed_via_external_storage = 1 then
      [Effect.getInputFromStorage task.task_id] else []) ++
      [Effect.submitPreMeasurements],
    interleave env.sched
      (do_task_local_lambda_execution_thread task
        (do_ttl_updates_thread task.task_id selfId clock
          cfg.work_proc_status_pull_interval_sec row gen (i + 1) env.ttlIters
          env.ttlThrottles).2.1 selfId clock i
        (do_ttl_updates_thread task.task_id selfId clock
          cfg.work_proc_status_pull_interval_sec row gen (i + 1) env.ttlIters
          env.ttlThrottles).2.2.2.1 env.retValue env.commitThrottles).trace
      (do_ttl_updates_thread task.task_id selfId clock
        cfg.work_proc_status_pull_interval_sec row gen (i + 1) env.ttlIters
        env.ttlThrottles).2.2.2.2, ?_, ?_, ?_⟩
  · unfold run_task
    simp [List.append_assoc]
  · refine (interleave_perm _ _ _).mem_iff.mpr (List.mem_append.mpr (Or.inl ?_))
    exact lambda_thread_invoke_mem _ _ _ _ _ _ _ _
  · rw [List.any_eq_false]
    intro e he
    simp [(run_task_safe cfg env task row selfId gen clock i e he).2]

/-! ## C5 -/

def happyAcquireEnv : AcquireEnv := ⟨some happyMessage, none, 0⟩

/-- The acquire step of the happy-path scenario: one queued message for
`T1`, status row `{T1, pending, owner:none}`, clock `fun n => n`. -/
def happyAcquire : AcquireResult :=
  try_to_acquire_a_task happyAcquireEnv (some pendingRow) "self" gen0
    (fun n => n) 0 50

/-- The execution/commit step of the happy-path scenario, fed with the
acquire step's outputs. -/
def happyRun : RunResult :=
  run_task cfg0 happyRunEnv (happyAcquire.task.getD happyTaskBody)
    happyAcquire.row "self" happyAcquire.gen (fun n => n) happyAcquire.nextCall

/-- C5: happy path.  Given one queued message `{task_id:"T1",...}` and a
row `{T1, pending, owner:none}`, the agent claims the task (the row
becomes `processing-self` owned by `self`), executes it remotely, marks
the row `finished`, deletes the queue message, and increments the
`agent_successful_acquire_a_task` and `ddb_set_task_finished_succeeded`
counters by exactly one each over the whole iteration. -/
theorem claim5_happy_path :
    happyAcquire.task = some ⟨"T1", "taskdef", "rh", 0, 3, 0, 0⟩ ∧
    happyAcquire.row = some ⟨"processing-self", "self", 32, 1, 0⟩ ∧
    happyRun.row = some ⟨"finished", "self", 32, 1, 8⟩ ∧
    Effect.invokeRemote "taskdef" ∈ happyRun.trace ∧
    Effect.sqsDelete ∈ happyRun.trace ∧
    (happyAcquire.trace ++ happyRun.trace).count
      (Effect.incrPre "agent_successful_acquire_a_task" 1) = 1 ∧
    (happyAcquire.trace ++ happyRun.trace).count
      (Effect.incrPost "ddb_set_task_finished_succeeded" 1) = 1 := by
  decide

/-! ## C7 -/

/-- The acquire step under a constant millisecond clock (all reads of
`get_time_now_ms()` land in the same millisecond). -/
def constClockAcquire : AcquireResult :=
  try_to_acquire_a_task happyAcquireEnv (some pendingRow) "self" gen0
    (fun _ => 7) 0 50

def constClockRun : RunResult :=
  run_task cfg0 happyRunEnv (constClockAcquire.task.getD happyTaskBody)
    constClockAcquire.row "self" constClockAcquire.gen (fun _ => 7)
    constClockAcquire.nextCall

/-- C7 counterexample: a task acquired, executed and committed under a
constant clock (repeated millisecond readings, which `time.time()`-based
stamps allow) has all four stage timestamps equal, so the strictly
increasing order claimed fails. -/
theorem claim7_counterexample :
    constClockAcquire.task.isSome = true ∧
    Effect.sqsDelete ∈ constClockRun.trace ∧
    ¬ (constClockRun.task.stage3_agent_01_task_acquired_sqs_tstmp <
        constClockRun.task.stage3_agent_02_task_acquired_ddb_tstmp ∧
       constClockRun.task.stage3_agent_02_task_acquired_ddb_tstmp <
        constClockRun.task.stage4_agent_01_user_code_finished_tstmp ∧
       constClockRun.task.stage4_agent_01_user_code_finished_tstmp <
        constClockRun.task.stage4_agent_02_S3_stdout_delivered_tstmp) := by
  decide

theorem ttl_retry_loop_nextCall_ge (taskId selfId : String)
    (clock : Nat → Nat) (row : Option StatusRow)
    (gen : TTLExpirationGenerator) (p : Nat) (l : List Bool) :
    p ≤ (ttl_retry_loop taskId selfId clock row gen p l).2.2.2.1 := by
  induction l generalizing row gen p with
  | nil =>
      show p ≤ p + 3
      omega
  | cons b t ih =>
      cases b with
      | false =>
          show p ≤ p + 3
          omega
      | true =>
          show p ≤ (ttl_retry_loop taskId selfId clock row
            (gen.generate_next_ttl (clock (p + 1))) (p + 3) t).2.2.2.1
          exact le_trans (by omega) (ih row _ (p + 3))

theorem update_ttl_if_required_nextCall_ge (taskId selfId : String)
    (row : Option StatusRow) (gen : TTLExpirationGenerator)
    (clock : Nat → Nat) (i interval : Nat) (throttles : List Bool) :
    i ≤ (update_ttl_if_required taskId selfId row gen clock i interval
      throttles).2.2.2.1 := by
  unfold update_ttl_if_required
  split
  · exact le_trans (by omega)
      (ttl_retry_loop_nextCall_ge taskId selfId clock row gen (i + 1) throttles)
  · show i ≤ i + 1
    omega

theorem do_ttl_updates_thread_nextCall_ge (taskId selfId : String)
    (clock : Nat → Nat) (interval : Nat) (row : Option StatusRow)
    (gen : TTLExpirationGenerator) (i iters : Nat)
    (scheds : List (List Bool)) :
    i ≤ (do_ttl_updates_thread taskId selfId clock interval row gen i iters
      scheds).2.2.2.1 := by
  induction iters generalizing row gen i scheds with
  | zero => exact le_refl i
  | succ n ih =>
      have hupd := update_ttl_if_required_nextCall_ge taskId selfId row gen
        clock i interval (scheds.headD [])
      unfold do_ttl_updates_thread
      dsimp only
      split
      · exact le_trans hupd (ih _ _ _ _)
      · exact hupd

/-- The run of one acquired task, fed with the acquirer's outputs, as
`event_loop` wires them together. -/
def acquire_then_run (cfg : AgentConfig) (aenv : AcquireEnv) (renv : RunEnv)
    (row : Option StatusRow) (selfId : String)
    (gen : TTLExpirationGenerator) (clock : Nat → Nat) (i vis : Nat)
    (t : Task) : RunResult :=
  run_task cfg renv t
    (try_to_acquire_a_task aenv row selfId gen clock i vis).row selfId
    (try_to_acquire_a_task aenv row selfId gen clock i vis).gen clock
    (try_to_acquire_a_task aenv row selfId gen clock i vis).nextCall

/-- C7 amended: for a task acquired, executed and committed, the four
stage timestamps are successive reads of the agent's clock, so for every
monotone (nondecreasing) clock they satisfy
`stage3_01 ≤ stage3_02 ≤ stage4_01 ≤ stage4_02`; strict inequality is
not guaranteed, since consecutive millisecond readings may coincide. -/
theorem claim7_amended_stage_timestamps_monotone (cfg : AgentConfig)
    (aenv : AcquireEnv) (renv : RunEnv) (row : Option StatusRow)
    (selfId : String) (gen : TTLExpirationGenerator) (clock : Nat → Nat)
    (i vis : Nat) (t : Task)
    (hmono : ∀ a b : Nat, a ≤ b → clock a ≤ clock b)
    (hacq : (try_to_acquire_a_task aenv row selfId gen clock i vis).task
      = some t)
    (hnb : decide (List.IsInfix "BOOTSTRAP ERROR".toList
      renv.retValue.toList) = false) :
    (acquire_then_run cfg aenv renv row selfId gen clock i vis t).task.stage3_agent_01_task_acquired_sqs_tstmp ≤
      (acquire_then_run cfg aenv renv row selfId gen clock i vis t).task.stage3_agent_02_task_acquired_ddb_tstmp ∧
    (acquire_then_run cfg aenv renv row selfId gen clock i vis t).task.stage3_agent_02_task_acquired_ddb_tstmp ≤
      (acquire_then_run cfg aenv renv row selfId gen clock i vis t).task.stage4_agent_01_user_code_finished_tstmp ∧
    (acquire_then_run cfg aenv renv row selfId gen clock i vis t).task.stage4_agent_01_user_code_finished_tstmp ≤
      (acquire_then_run cfg aenv renv row selfId gen clock i vis t).task.stage4_agent_02_S3_stdout_delivered_tstmp := by
  cases hmsg : aenv.message with
  | none =>
      exfalso
      unfold try_to_acquire_a_task at hacq
      rw [hmsg] at hacq
      cases hacq
  | some m =>
      unfold acquire_then_run
      unfold try_to_acquire_a_task at hacq ⊢
      rw [hmsg] at hacq ⊢
      by_cases hcl : (claim_task_to_yourself row selfId
          ((gen.generate_next_ttl (clock (i + 2))).get_next_expiration_timestamp)).1
          = true
      · simp only [hcl, if_true] at hacq ⊢
        rw [Option.some.injEq] at hacq
        subst hacq
        unfold run_task
        unfold do_task_local_lambda_execution_thread
        rw [hnb]
        simp only [Bool.false_eq_true, if_false]
        unfold process_subprocess_completion
        dsimp only
        refine ⟨hmono i (i + 3) (by omega), ?_, ?_⟩
        · refine hmono (i + 3) _ ?_
          have hge := do_ttl_updates_thread_nextCall_ge
            m.body.task_id selfId clock
            cfg.work_proc_status_pull_interval_sec
            (claim_task_to_yourself row selfId
              ((gen.generate_next_ttl (clock (i + 2))).get_next_expiration_timestamp)).2
            (gen.generate_next_ttl (clock (i + 2))) (i + 4 + 1)
            renv.ttlIters renv.ttlThrottles
          omega
        · refine hmono _ _ ?_
          omega
      · exfalso
        rw [Bool.not_eq_true] at hcl
        simp only [hcl, Bool.false_eq_true, if_false] at hacq
        by_cases hc2 : is_task_has_been_cancelled aenv.readResponse = true
        · simp only [hc2, if_true] at hacq
          cases hacq
        · rw [Bool.not_eq_true] at hc2
          simp only [hc2, Bool.false_eq_true, if_false] at hacq
          cases hacq

/-- Witness for C7 amended: the happy-path scenario under the identity
clock. -/
theorem claim7_witness :
    (acquire_then_run cfg0 happyAcquireEnv happyRunEnv (some pendingRow)
      "self" gen0 (fun n => n) 0 50
      ⟨"T1", "taskdef", "rh", 0, 3, 0, 0⟩).task.stage3_agent_01_task_acquired_sqs_tstmp ≤
      (acquire_then_run cfg0 happyAcquireEnv happyRunEnv (some pendingRow)
        "self" gen0 (fun n => n) 0 50
        ⟨"T1", "taskdef", "rh", 0, 3, 0, 0⟩).task.stage3_agent_02_task_acquired_ddb_tstmp ∧
    (acquire_then_run cfg0 happyAcquireEnv happyRunEnv (some pendingRow)
      "self" gen0 (fun n => n) 0 50
      ⟨"T1", "taskdef", "rh", 0, 3, 0, 0⟩).task.stage3_agent_02_task_acquired_ddb_tstmp ≤
      (acquire_then_run cfg0 happyAcquireEnv happyRunEnv (some pendingRow)
        "self" gen0 (fun n => n) 0 50
        ⟨"T1", "taskdef", "rh", 0, 3, 0, 0⟩).task.stage4_agent_01_user_code_finished_tstmp ∧
    (acquire_then_run cfg0 happyAcquireEnv happyRunEnv (some pendingRow)
      "self" gen0 (fun n => n) 0 50
      ⟨"T1", "taskdef", "rh", 0, 3, 0, 0⟩).task.stage4_agent_01_user_code_finished_tstmp ≤
      (acquire_then_run cfg0 happyAcquireEnv happyRunEnv (some pendingRow)
        "self" gen0 (fun n => n) 0 50
        ⟨"T1", "taskdef", "rh", 0, 3, 0, 0⟩).task.stage4_agent_02_S3_stdout_delivered_tstmp :=
  claim7_amended_stage_timestamps_monotone cfg0 happyAcquireEnv happyRunEnv
    (some pendingRow) "self" gen0 (fun n => n) 0 50
    ⟨"T1", "taskdef", "rh", 0, 3, 0, 0⟩ (fun _ _ h => h) rfl rfl

/-! ## C8 -/

def happyIterEnv : IterEnv := ⟨happyAcquireEnv, some pendingRow, happyRunEnv, 0⟩

/-- The graceful-termination flag: set from the first loop-head check
after the signal, i.e. before iteration 1. -/
def shutdownKill : Nat → Bool := fun n => decide (1 ≤ n)

/-- C8: the flag `kill_now` is observed only at the loop-head check
between iterations: when it is first observed set before iteration `k`,
the loop's trace is exactly the `k` complete iteration traces (so an
iteration that started — even with the signal arriving while its task
was in flight — contributes its whole run, including the commit),
followed by the best-effort stop POST to the remote runtime. -/
theorem claim8_kill_checked_between_iterations (cfg : AgentConfig)
    (selfId : String) (clock : Nat → Nat) (kill : Nat → Bool) (k : Nat) :
    ∀ (envs : List IterEnv) (n : Nat) (s : LoopState),
      (∀ j, j < k → kill (n + j) = false) → kill (n + k) = true →
      k ≤ envs.length →
      event_loop cfg selfId clock kill envs n s =
        run_iterations cfg selfId clock (envs.take k) s ++ [Effect.postStop] := by
  induction k with
  | zero =>
      intro envs n s hb hk hl
      rw [Nat.add_zero] at hk
      unfold event_loop
      rw [hk]
      simp [run_iterations]
  | succ k ih =>
      intro envs n s hb hk hl
      have h0 : kill n = false := by
        have h := hb 0 (Nat.succ_pos k)
        rwa [Nat.add_zero] at h
      cases envs with
      | nil => exact absurd hl (by simp)
      | cons e rest =>
          unfold event_loop
          rw [h0]
          simp only [Bool.false_eq_true, if_false]
          rw [List.take_succ_cons]
          simp only [run_iterations]
          rw [List.append_assoc]
          congr 1
          refine ih rest (n + 1) (agent_iteration cfg selfId clock e s).1
            ?_ ?_ ?_
          · intro j hj
            have h := hb (j + 1) (Nat.succ_lt_succ hj)
            rwa [show n + (j + 1) = n + 1 + j by omega] at h
          · rwa [show n + (k + 1) = n + 1 + k by omega] at hk
          · have h := hl
            rw [List.length_cons] at h
            omega

/-- Witness for C8: one iteration runs to completion, then the signal is
observed and the stop POST is issued. -/
theorem claim8_witness :
    event_loop cfg0 "self" (fun n => n) shutdownKill [happyIterEnv] 0
      ⟨gen0, 0⟩ =
      run_iterations cfg0 "self" (fun n => n) ([happyIterEnv].take 1)
        ⟨gen0, 0⟩ ++ [Effect.postStop] :=
  claim8_kill_checked_between_iterations cfg0 "self" (fun n => n)
    shutdownKill 1 [happyIterEnv] 0 ⟨gen0, 0⟩
    (fun j hj => by
      have hj0 : j = 0 := by omega
      subst hj0
      rfl)
    rfl (by simp)

end Agent
